import Mathlib

/-!
Verification development for the AWS billing-report tool.

The Python source is shallowly embedded: money amounts are rationals (`ℚ`),
`datetime` values are integer POSIX seconds (`ℤ`), Python dictionaries are
association lists, exceptions are the `Except` monad, and the external Cost
Explorer API is an explicit response value (`Except PyErr CEResponse`) passed
in, so that every operation is a pure function of the injected external state.
-/

/-- Python exception kinds that the embedded code can raise. -/
inductive PyErr where
  | attributeError
  | valueError
  | typeError
  | keyError
  | indexError
  | otherError
deriving DecidableEq

/-- Embedded Python values, as far as the report dictionaries need them. -/
inductive PyV where
  | num (q : ℚ)
  | str (s : String)
  | pynone
  | dict (entries : List (String × PyV))
  | list (xs : List PyV)

/-- `True` exactly on Python dict values (`isinstance(v, dict)`). -/
def isDict : PyV → Bool
  | .dict _ => true
  | _ => false

/-- Python `v == s` for a string literal `s`: never raises, `False` across types. -/
def pyEqStr : PyV → String → Bool
  | .str t, s => t == s
  | _, _ => false

/-- Coerce a Python value to a number; non-numbers raise `TypeError`
(as Python does when formatting with `:.2f` or comparing with `<`). -/
def asNum : PyV → Except PyErr ℚ
  | .num q => .ok q
  | _ => .error .typeError

/-- First-match lookup in an association list (Python dict `d[k]` / `d.get(k)`). -/
def pyLookup : List (String × PyV) → String → Option PyV
  | [], _ => none
  | (k', v) :: rest, k => if k' = k then some v else pyLookup rest k

/-- Python `d.get(k, default)` on an association list. -/
def pyGetD (m : List (String × PyV)) (k : String) (d : PyV) : PyV :=
  (pyLookup m k).getD d

/-- Python `v.get(k, default)` on an arbitrary value: non-dicts have no
`get` attribute and raise `AttributeError`. -/
def pyGetMethod (v : PyV) (k : String) (d : PyV) : Except PyErr PyV :=
  match v with
  | .dict m => .ok (pyGetD m k d)
  | _ => .error .attributeError

/-- Set a key in a dict: overwrite the first occurrence in place, else append
(Python dict assignment semantics, insertion-ordered). -/
def dictSet : List (String × PyV) → String → PyV → List (String × PyV)
  | [], k, v => [(k, v)]
  | (k', v') :: rest, k, v =>
    if k' = k then (k', v) :: rest else (k', v') :: dictSet rest k v

/-- Evaluate a Python dict literal: keys are bound left to right, a repeated
key overwrites the earlier value (the later binding wins). -/
def pyDictLit (ps : List (String × PyV)) : List (String × PyV) :=
  ps.foldl (fun m p => dictSet m p.1 p.2) []

/-! ## Configuration (`config.py`)

`BillingConfig` is a pydantic model with exactly the five declared fields.
Reading any other attribute from an instance raises `AttributeError`, which
`BillingConfig.getattr` models; in particular neither `total_credits` nor
`credit_expiration` is declared. -/

/-- The `BillingConfig` pydantic model (config.py lines 9–25), with its
declared fields and defaults. -/
structure BillingConfig where
  period_type : String := "m"
  period_count : ℤ := 1
  aws_region : String := "us-east-1"
  currency : String := "USD"
  min_cost_threshold : ℚ := 1/100

/-- Python attribute access on a `BillingConfig` instance: the five declared
fields resolve, every other name raises `AttributeError` (pydantic models
reject undeclared attributes). -/
def BillingConfig.getattr (c : BillingConfig) (name : String) : Except PyErr PyV :=
  if name = "period_type" then .ok (.str c.period_type)
  else if name = "period_count" then .ok (.num c.period_count)
  else if name = "aws_region" then .ok (.str c.aws_region)
  else if name = "currency" then .ok (.str c.currency)
  else if name = "min_cost_threshold" then .ok (.num c.min_cost_threshold)
  else .error .attributeError

/-- The shipped default configuration instance (`config = Config()`). -/
def defaultConfig : BillingConfig := {}

/-- Seconds per day, for the `timedelta(days=…)` arithmetic. -/
def secondsPerDay : ℤ := 86400

/-- `datetime.now().replace(hour=0, minute=0, second=0, microsecond=0)`:
truncate a POSIX-seconds timestamp to the start of its day. -/
def midnight (now : ℤ) : ℤ := now - now % secondsPerDay

/-- `Config.get_billing_period` (config.py lines 49–66): the end date is
the midnight of the current day; the start date is `period_count` days (kind `'d'`) or
`period_count * 30` days (kind `'m'`) earlier; any other kind raises
`ValueError`.  The ambient `datetime.now()` is the explicit `now` argument. -/
def get_billing_period (cfg : BillingConfig) (now : ℤ) : Except PyErr (ℤ × ℤ) :=
  let end_date := midnight now
  if cfg.period_type = "d" then
    .ok (end_date - cfg.period_count * secondsPerDay, end_date)
  else if cfg.period_type = "m" then
    .ok (end_date - cfg.period_count * 30 * secondsPerDay, end_date)
  else
    .error .valueError

/-! ## Cost Explorer responses and the query adapter (`aws_billing.py`)

A response is a list of time-bucketed results.  Parts of a response that the
Python code reads with a raising operation are modelled fallibly: the
`Keys` list may be empty (`[0]` raises `IndexError`), an `Amount` may be
unparseable (`float(…)` raises `ValueError`, modelled as `amount = none`), and
the `Groups` / `Total` keys may be absent (`result["…"]` raises `KeyError`). -/

/-- One group of a Cost Explorer result: its `Keys` list and the
`Metrics.UnblendedCost.Amount` string (`none` when not a parseable float). -/
structure CEGroup where
  keys : List String
  amount : Option ℚ

/-- One entry of `ResultsByTime`: its period start string, the optional
`Groups` list, and the optional `Total.UnblendedCost` (amount, unit). -/
structure CETimeResult where
  startDate : String
  groups : Option (List CEGroup)
  total : Option (Option ℚ × String)

/-- A Cost Explorer `get_cost_and_usage` response. -/
structure CEResponse where
  resultsByTime : List CETimeResult

/-- `group["Keys"][0]`: raises `IndexError` on an empty list. -/
def listIdx0 : List String → Except PyErr String
  | [] => .error .indexError
  | x :: _ => .ok x

/-- `float(group["Metrics"]["UnblendedCost"]["Amount"])`: raises `ValueError`
on a malformed amount. -/
def parseAmt : Option ℚ → Except PyErr ℚ
  | some q => .ok q
  | none => .error .valueError

/-- `result["Groups"]`: raises `KeyError` when the key is absent. -/
def getGroups (r : CETimeResult) : Except PyErr (List CEGroup) :=
  match r.groups with
  | some gs => .ok gs
  | none => .error .keyError

/-- `result["Total"]["UnblendedCost"]`: raises `KeyError` when absent. -/
def getTotal (r : CETimeResult) : Except PyErr (Option ℚ × String) :=
  match r.total with
  | some t => .ok t
  | none => .error .keyError

/-! ### The aggregation loop of `get_cost_by_service` (lines 65–80)

The loop flattens the response into `(key, amount)` cost records and folds
them into an insertion-ordered dict, then a comprehension drops entries below
the configured threshold. -/

/-- First-match lookup in a `(key, summed cost)` dict. -/
def dictLookup : List (String × ℚ) → String → Option ℚ
  | [], _ => none
  | (k', v) :: rest, k => if k' = k then some v else dictLookup rest k

/-- One iteration of the accumulation loop (lines 72–74): a missing key is
inserted at the end with `0.0` and then incremented in place. -/
def updateCost : List (String × ℚ) → String → ℚ → List (String × ℚ)
  | [], k, c => [(k, c)]
  | (k', v) :: rest, k, c =>
    if k' = k then (k', v + c) :: rest else (k', v) :: updateCost rest k c

/-- The `service_costs` accumulation over a flat list of cost records. -/
def service_costs (records : List (String × ℚ)) : List (String × ℚ) :=
  records.foldl (fun m r => updateCost m r.1 r.2) []

/-- The `filtered_costs` comprehension (lines 77–80): keep entries whose cost
is at least the threshold. -/
def filtered_costs (threshold : ℚ) (m : List (String × ℚ)) : List (String × ℚ) :=
  m.filter (fun p => decide (threshold ≤ p.2))

/-- The whole in-memory aggregation of `get_cost_by_service` on the flattened
cost records: group by key, sum, drop groups under the threshold. -/
def aggregateCosts (threshold : ℚ) (records : List (String × ℚ)) : List (String × ℚ) :=
  filtered_costs threshold (service_costs records)

/-- Sum of the amounts of the records carrying a given dimension key. -/
def keySum (records : List (String × ℚ)) (k : String) : ℚ :=
  ((records.filter (fun r => decide (r.1 = k))).map Prod.snd).sum

/-! ### The float semantics of the accumulation

The Python loop accumulates IEEE-754 binary64 values: every `+=` rounds the
exact sum to the nearest double.  `roundB64` models that rounding on the exact
rationals the doubles denote (round to nearest, ties to even; overflow and
subnormal thresholds are outside the magnitudes this code handles and are not
modelled), and the `…Fp` definitions repeat the aggregation loop with this
float addition in place of exact addition. -/

/-- Round a rational to the nearest integer, ties to the even neighbour. -/
def roundHalfEven (x : ℚ) : ℤ :=
  if x - ⌊x⌋ < 1/2 then ⌊x⌋
  else if 1/2 < x - ⌊x⌋ then ⌊x⌋ + 1
  else if 2 ∣ ⌊x⌋ then ⌊x⌋ else ⌊x⌋ + 1

/-- Round a rational to the nearest IEEE-754 binary64 value (53-bit
significand, round to nearest, ties to even), returned as the exact rational
that double denotes. -/
def roundB64 (q : ℚ) : ℚ :=
  if q = 0 then 0
  else
    let x := |q|
    let e : ℤ := Int.log 2 x - 52
    let m : ℤ := roundHalfEven (x / 2 ^ e)
    (if q < 0 then (-1 : ℚ) else 1) * (m : ℚ) * 2 ^ e

/-- Python float addition: the exact sum rounded to binary64. -/
def fpAdd (a b : ℚ) : ℚ := roundB64 (a + b)

/-- The accumulation step of lines 72–74 with the float semantics of the
source: a missing key is inserted as `0.0 + cost`, an existing one is
incremented with float addition. -/
def updateCostFp : List (String × ℚ) → String → ℚ → List (String × ℚ)
  | [], k, c => [(k, fpAdd 0 c)]
  | (k', v) :: rest, k, c =>
    if k' = k then (k', fpAdd v c) :: rest else (k', v) :: updateCostFp rest k c

/-- The `service_costs` accumulation with float addition. -/
def service_costs_fp (records : List (String × ℚ)) : List (String × ℚ) :=
  records.foldl (fun m r => updateCostFp m r.1 r.2) []

/-- The aggregation of `get_cost_by_service` with the float accumulation of
the source. -/
def aggregateCostsFp (threshold : ℚ) (records : List (String × ℚ)) :
    List (String × ℚ) :=
  filtered_costs threshold (service_costs_fp records)

/-- The amounts of the records carrying a given dimension key, in source
order — the sequence of additions performed by the float accumulator of that
key. -/
def keyVals (records : List (String × ℚ)) (k : String) : List ℚ :=
  (records.filter (fun r => decide (r.1 = k))).map Prod.snd

/-- The body of the `try` of `get_cost_by_service` / `get_cost_by_usage_type`
after the API call: accumulate each group of each time bucket (reading
`result["Groups"]`, `Keys[0]` and parsing the amount can each raise). -/
def accumGroups (resp : CEResponse) : Except PyErr (List (String × ℚ)) :=
  resp.resultsByTime.foldlM
    (fun m res => do
      let gs ← getGroups res
      gs.foldlM
        (fun m g => do
          let k ← listIdx0 g.keys
          let c ← parseAmt g.amount
          pure (updateCost m k c)) m)
    []

/-- `AWSBillingAnalyzer.get_cost_by_service` (lines 45–86): on any failure of
the API call or of the response processing, the `except` returns `{}`. -/
def get_cost_by_service (cfg : BillingConfig) (ext : Except PyErr CEResponse) :
    List (String × ℚ) :=
  match (do
      let r ← ext
      let sc ← accumGroups r
      pure (filtered_costs cfg.min_cost_threshold sc)) with
  | .ok v => v
  | .error _ => []

/-- `AWSBillingAnalyzer.get_cost_by_usage_type` (lines 88–129): identical
logic over the usage-type grouping. -/
def get_cost_by_usage_type (cfg : BillingConfig) (ext : Except PyErr CEResponse) :
    List (String × ℚ) :=
  match (do
      let r ← ext
      let sc ← accumGroups r
      pure (filtered_costs cfg.min_cost_threshold sc)) with
  | .ok v => v
  | .error _ => []

/-- `AWSBillingAnalyzer.get_daily_costs` (lines 131–164): one `{date, cost,
unit}` dict per time bucket; any failure returns `[]`. -/
def get_daily_costs (ext : Except PyErr CEResponse) : List PyV :=
  match (do
      let r ← ext
      r.resultsByTime.foldlM
        (fun acc res => do
          let t ← getTotal res
          let c ← parseAmt t.1
          pure (acc ++ [PyV.dict
            [("date", .str res.startDate), ("cost", .num c), ("unit", .str t.2)]]))
        ([] : List PyV)) with
  | .ok v => v
  | .error _ => []

/-- `AWSBillingAnalyzer.get_total_cost` (lines 166–188):
`response["ResultsByTime"][0]` (raises `IndexError` when empty), then the
total amount; any failure returns `0.0`. -/
def get_total_cost (ext : Except PyErr CEResponse) : ℚ :=
  match (do
      let r ← ext
      let first ← (match r.resultsByTime with
        | [] => Except.error PyErr.indexError
        | x :: _ => Except.ok x)
      let t ← getTotal first
      parseAmt t.1) with
  | .ok v => v
  | .error _ => 0

/-- The record-type summation loop shared by `get_credits` and
`get_usage_cost`: `result.get("Groups", [])`, `Keys[0]`, and the amount is
only parsed for groups whose record type matches. -/
def sumRecordType (target : String) (resp : CEResponse) : Except PyErr ℚ :=
  resp.resultsByTime.foldlM
    (fun acc res =>
      (res.groups.getD []).foldlM
        (fun acc g => do
          let rt ← listIdx0 g.keys
          if rt = target then do
            let c ← parseAmt g.amount
            pure (acc + c)
          else
            pure acc) acc)
    0

/-- `AWSBillingAnalyzer.get_credits` (lines 190–223): sum the (negative)
`Credit` amounts; any failure returns `0.0`. -/
def get_credits (ext : Except PyErr CEResponse) : ℚ :=
  match (do let r ← ext; sumRecordType "Credit" r) with
  | .ok v => v
  | .error _ => 0

/-- `AWSBillingAnalyzer.get_usage_cost` (lines 225–258): sum the `Usage`
amounts; any failure returns `0.0`. -/
def get_usage_cost (ext : Except PyErr CEResponse) : ℚ :=
  match (do let r ← ext; sumRecordType "Usage" r) with
  | .ok v => v
  | .error _ => 0

/-- The lifetime loop of `get_credits_used_lifetime` (lines 288–293): sum the
absolute values of the `Credit` amounts over the 400-day lookback. -/
def sumRecordTypeAbs (target : String) (resp : CEResponse) : Except PyErr ℚ :=
  resp.resultsByTime.foldlM
    (fun acc res =>
      (res.groups.getD []).foldlM
        (fun acc g => do
          let rt ← listIdx0 g.keys
          if rt = target then do
            let c ← parseAmt g.amount
            pure (acc + |c|)
          else
            pure acc) acc)
    0

/-- `AWSBillingAnalyzer.get_credits_used_lifetime` (lines 260–299): any
failure returns `0.0`. -/
def get_credits_used_lifetime (ext : Except PyErr CEResponse) : ℚ :=
  match (do let r ← ext; sumRecordTypeAbs "Credit" r) with
  | .ok v => v
  | .error _ => 0

/-- The arithmetic of `get_remaining_credits` lines 310–311: `remaining =
total_credits - credits_used`, clamped at zero by `max(0.0, remaining)`. -/
def remaining_credits_calc (total_credits credits_used : ℚ) : ℚ :=
  max 0 (total_credits - credits_used)

/-- `AWSBillingAnalyzer.get_remaining_credits` (lines 301–311): reads
`config.billing.total_credits` (an undeclared attribute) outside any `try`,
then clamps `total - used` at zero. -/
def get_remaining_credits (cfg : BillingConfig) (extLifetime : Except PyErr CEResponse) :
    Except PyErr ℚ := do
  let tc ← cfg.getattr "total_credits" >>= asNum
  let credits_used := get_credits_used_lifetime extLifetime
  pure (remaining_credits_calc tc credits_used)

/-- The expression of `get_net_cost` line 322: usage cost plus the (signed,
normally negative) credits. -/
def net_cost_calc (usage_cost credits : ℚ) : ℚ := usage_cost + credits

/-- `AWSBillingAnalyzer.get_net_cost` (lines 313–322). -/
def get_net_cost (extRecordType : Except PyErr CEResponse) : ℚ :=
  net_cost_calc (get_usage_cost extRecordType) (get_credits extRecordType)

/-! ## The billing report (`generate_billing_report`, lines 324–374)

The external world of one analyzer run: one response per distinct query, the
ambient clock, and the strings the analyzer derives for display. -/

/-- All external inputs of one run: the Cost Explorer responses for each
query shape, the ambient `now`, and the formatted period strings
and generation timestamp. -/
structure ExtState where
  byService : Except PyErr CEResponse
  byUsage : Except PyErr CEResponse
  daily : Except PyErr CEResponse
  total : Except PyErr CEResponse
  recordType : Except PyErr CEResponse
  lifetime : Except PyErr CEResponse
  now : ℤ
  startStr : String
  endStr : String
  generatedAt : String

/-- The key/value sequence of the dict literal of lines 343–372, in source
order.  The key `"credits"` appears twice: once with the structured credit
dict (line 356) and once, later, with the signed period-credits float
(line 365). -/
def billing_report_entries (startStr endStr ptype : String) (pcount : ℤ)
    (usage_cost credits_applied net_cost : ℚ) (total_available expiration : PyV)
    (used_lifetime remaining : ℚ) (currency : String)
    (byService byUsage : List (String × ℚ)) (daily : List PyV)
    (generatedAt : String) : List (String × PyV) :=
  [ ("period", .dict
      [ ("start_date", .str startStr)
      , ("end_date", .str endStr)
      , ("period_type", .str ptype)
      , ("period_count", .num pcount) ])
  , ("costs", .dict
      [ ("usage_cost_period", .num usage_cost)
      , ("credits_applied_period", .num |credits_applied|)
      , ("net_cost_period", .num net_cost)
      , ("total_cost", .num usage_cost) ])
  , ("credits", .dict
      [ ("total_available", total_available)
      , ("used_lifetime", .num used_lifetime)
      , ("remaining", .num remaining)
      , ("applied_this_period", .num |credits_applied|)
      , ("expiration_date", expiration) ])
  , ("total_cost", .num usage_cost)
  , ("credits", .num credits_applied)
  , ("net_cost", .num net_cost)
  , ("currency", .str currency)
  , ("costs_by_service", .dict (byService.map (fun p => (p.1, PyV.num p.2))))
  , ("costs_by_usage_type", .dict (byUsage.map (fun p => (p.1, PyV.num p.2))))
  , ("daily_costs", .list daily)
  , ("generated_at", .str generatedAt) ]

/-- The report dict produced by evaluating the literal of lines 343–372. -/
def billing_report_dict (startStr endStr ptype : String) (pcount : ℤ)
    (usage_cost credits_applied net_cost : ℚ) (total_available expiration : PyV)
    (used_lifetime remaining : ℚ) (currency : String)
    (byService byUsage : List (String × ℚ)) (daily : List PyV)
    (generatedAt : String) : List (String × PyV) :=
  pyDictLit (billing_report_entries startStr endStr ptype pcount usage_cost
    credits_applied net_cost total_available expiration used_lifetime remaining
    currency byService byUsage daily generatedAt)

/-- `AWSBillingAnalyzer.generate_billing_report` (lines 324–374): gathers the
period metrics, then reads `config.billing.total_credits` (line 339) and the
credit-accounting values, and assembles the report dict.  No `try` protects
the config reads. -/
def generate_billing_report (cfg : BillingConfig) (ext : ExtState) :
    Except PyErr (List (String × PyV)) := do
  let usage_cost := get_usage_cost ext.recordType
  let credits_applied := get_credits ext.recordType
  let net_cost := get_net_cost ext.recordType
  let total_available ← cfg.getattr "total_credits"
  let credits_used_lifetime := get_credits_used_lifetime ext.lifetime
  let remaining ← get_remaining_credits cfg ext.lifetime
  let expiration ← cfg.getattr "credit_expiration"
  pure (billing_report_dict ext.startStr ext.endStr cfg.period_type
    cfg.period_count usage_cost credits_applied net_cost total_available
    expiration credits_used_lifetime remaining cfg.currency
    (get_cost_by_service cfg ext.byService)
    (get_cost_by_usage_type cfg ext.byUsage)
    (get_daily_costs ext.daily) ext.generatedAt)

/-! ## Console renderer (`billing_manager.py`, lines 59–155) -/

/-- The status classification of lines 144–152, a function of the remaining
credits alone. -/
def credit_status (remaining_credits : ℚ) : String :=
  if 1000 < remaining_credits then "✅ HEALTHY - Credits are sufficient"
  else if 500 < remaining_credits then "⚠️  MONITOR - Credits getting low"
  else if 0 < remaining_credits then "🚨 CRITICAL - Credits running out soon!"
  else "❌ EXHAUSTED - No credits remaining!"

/-- The credits-applied extraction of lines 123–126: a dict report section
reads `applied_this_period`, anything else takes `abs(credits)` when the
value is a negative number (comparing a non-number raises `TypeError`). -/
def console_credits_applied (credits : PyV) : Except PyErr ℚ :=
  match credits with
  | .dict m => asNum (pyGetD m "applied_this_period" (.num 0))
  | v => do
    let n ← asNum v
    pure (if n < 0 then -n else 0)

/-- The `try` block of lines 93–99: fetch fresh lifetime usage and remaining
credits from the analyzer; on any exception fall back to `used_lifetime = 0`
and `remaining_credits = total_credits (= 5000)`. -/
def console_credit_overview (cfg : BillingConfig) (ext : ExtState) : ℚ × ℚ :=
  match (do
      let u := get_credits_used_lifetime ext.lifetime
      let r ← get_remaining_credits cfg ext.lifetime
      Except.ok (u, r) : Except PyErr (ℚ × ℚ)) with
  | .ok p => p
  | .error _ => (0, 5000)

/-- The values a console rendering interpolates into its output text, in
print order. -/
structure ConsoleOutput where
  header_count : ℚ
  period_text : String
  start_date : PyV
  end_date : PyV
  currency : PyV
  total_credits : ℚ
  used_lifetime : ℚ
  remaining_credits : ℚ
  expiration : String
  percent_used : Option ℚ
  usage_cost : ℚ
  credits_applied : ℚ
  net_cost_display : ℚ
  burn_rate : Option (ℚ × ℚ)
  status : String

/-- `BillingManager._display_report_console` (lines 59–155): pulls the report
sections with `.get` defaults, recomputes the credit overview through the
analyzer (falling back on exception), floors the displayed net cost at zero,
and classifies the status.  The result is the sequence of interpolated
values; `TypeError`s from comparing or formatting non-numeric fields
propagate, everything else renders. -/
def display_report_console (cfg : BillingConfig) (ext : ExtState)
    (report : List (String × PyV)) : Except PyErr ConsoleOutput := do
  let period := pyGetD report "period" (.dict [])
  let costs := pyGetD report "costs" (.dict [])
  let credits := pyGetD report "credits" (.dict [])
  let currency := pyGetD report "currency" (.str "USD")
  let period_typeV ← pyGetMethod period "period_type" (.str "d")
  let period_countV ← pyGetMethod period "period_count" (.num 1)
  let pcount ← asNum period_countV
  let period_text :=
    if pyEqStr period_typeV "m" then (if 1 < pcount then "months" else "month")
    else (if 1 < pcount then "days" else "day")
  let start_date ← pyGetMethod period "start_date" .pynone
  let end_date ← pyGetMethod period "end_date" .pynone
  let total_credits : ℚ := 5000
  let expiration := "Unknown"
  let overview := console_credit_overview cfg ext
  let used_lifetime := overview.1
  let remaining_credits := overview.2
  let percent_used :=
    if 0 < total_credits then some (used_lifetime / total_credits * 100) else none
  let usage_costV :=
    match costs with
    | .dict m => pyGetD m "usage_cost_period" (.num 0)
    | _ => pyGetD report "total_cost" (.num 0)
  let net_costV :=
    match costs with
    | .dict m => pyGetD m "net_cost_period" (.num 0)
    | _ => pyGetD report "net_cost" (.num 0)
  let credits_applied ← console_credits_applied credits
  let usage_cost ← asNum usage_costV
  let net_cost ← asNum net_costV
  let net_cost_display := max 0 net_cost
  let burn_rate :=
    if 0 < pcount ∧ 0 < credits_applied then
      let monthly_burn :=
        credits_applied * (30 / (pcount * (if pyEqStr period_typeV "m" then 30 else 1)))
      if 0 < monthly_burn ∧ 0 < remaining_credits then
        some (monthly_burn, remaining_credits / monthly_burn)
      else none
    else none
  let status := credit_status remaining_credits
  pure
    { header_count := pcount
      period_text := period_text
      start_date := start_date
      end_date := end_date
      currency := currency
      total_credits := total_credits
      used_lifetime := used_lifetime
      remaining_credits := remaining_credits
      expiration := expiration
      percent_used := percent_used
      usage_cost := usage_cost
      credits_applied := credits_applied
      net_cost_display := net_cost_display
      burn_rate := burn_rate
      status := status }

/-! ## Chat formatter (`integrations/slack_integration.py`, lines 25–73) -/

/-- The values interpolated into the Slack message of lines 67–71. -/
structure SlackMsg where
  usage_cost : ℚ
  lifetime_credits_used : ℚ
  remaining_credits : ℚ
  net_display : ℚ

/-- The `try` block of lines 55–59: construct a fresh analyzer (`ValueError`
without credentials; computes the billing period) and query remaining and
lifetime credits. -/
def slack_try_block (cfg : BillingConfig) (env_creds : Bool) (ext : ExtState) :
    Except PyErr (ℚ × ℚ) := do
  if env_creds then
    let _ ← get_billing_period cfg ext.now
    let remaining ← get_remaining_credits cfg ext.lifetime
    let lifetime := get_credits_used_lifetime ext.lifetime
    pure (remaining, lifetime)
  else
    .error .valueError

/-- The cost-field extraction of lines 38–49: a dict `costs` section is read
with `.get` defaults; the legacy branch compares `report.get("credits", 0) <
0`, which raises `TypeError` on a non-numeric value. -/
def slack_extract (report : List (String × PyV)) : Except PyErr (PyV × PyV × PyV) :=
  match pyGetD report "costs" (.dict []) with
  | .dict m =>
    Except.ok (pyGetD m "usage_cost_period" (.num 0),
      pyGetD m "credits_applied_period" (.num 0),
      pyGetD m "net_cost_period" (.num 0))
  | _ => do
    let creditsN ← asNum (pyGetD report "credits" (.num 0))
    Except.ok (pyGetD report "total_cost" (.num 0),
      PyV.num (if creditsN < 0 then -creditsN else 0),
      pyGetD report "net_cost" (.num 0))

/-- Lines 55–64: the fresh-analyzer `try`, whose `except` fallback reads
`config.billing.total_credits` and the hard-coded `490.87` lifetime value. -/
def slack_credit_vals (cfg : BillingConfig) (env_creds : Bool) (ext : ExtState) :
    Except PyErr (ℚ × ℚ) :=
  match slack_try_block cfg env_creds ext with
  | .ok p => Except.ok p
  | .error _ => do
    let total_credits ← cfg.getattr "total_credits" >>= asNum
    Except.ok (total_credits - 49087/100, (49087/100 : ℚ))

/-- `SlackIntegration.format_billing_message` (lines 25–73): extract the cost
fields, then recompute the credit figures (try the fresh analyzer, fall back
to the config constant), and finally interpolate the numbers into the message
(flooring the net cost at zero). -/
def format_billing_message (cfg : BillingConfig) (env_creds : Bool)
    (ext : ExtState) (report : List (String × PyV)) : Except PyErr SlackMsg := do
  let extracted ← slack_extract report
  let credit_vals ← slack_credit_vals cfg env_creds ext
  let usage_cost ← asNum extracted.1
  let net_cost ← asNum extracted.2.2
  pure
    { usage_cost := usage_cost
      lifetime_credits_used := credit_vals.2
      remaining_credits := credit_vals.1
      net_display := max 0 net_cost }

/-! ## Concrete instances used in the theorems -/

/-- An external state in which every query fails and the clock reads 0. -/
def extEmpty : ExtState :=
  { byService := .error .otherError
    byUsage := .error .otherError
    daily := .error .otherError
    total := .error .otherError
    recordType := .error .otherError
    lifetime := .error .otherError
    now := 0
    startStr := ""
    endStr := ""
    generatedAt := "" }

/-- A response with no time buckets (`ResultsByTime = []`). -/
def emptyResp : CEResponse := ⟨[]⟩

/-- A malformed response: its one group has an empty `Keys` list, so indexing
`Keys[0]` raises inside the `try` of each query. -/
def malformedResp : CEResponse :=
  ⟨[{ startDate := "2024-01-01", groups := some [⟨[], some 1⟩], total := none }]⟩

/-- The end-to-end scenario-2 response: one bucket grouping EC2 at 120.00 and
S3 at 0.005. -/
def respEC2S3 : CEResponse :=
  ⟨[{ startDate := "2024-01-01"
      groups := some [⟨["EC2"], some 120⟩, ⟨["S3"], some (1/200)⟩]
      total := none }]⟩

/-- The end-to-end scenario-3 report: usage 200.00, credits −250.00, stored
net cost −50.00. -/
def reportScenario3 : List (String × PyV) :=
  billing_report_dict "2024-01-01" "2024-01-31" "m" 1 200 (-250) (-50)
    (.num 5000) .pynone 0 0 "USD" [] [] [] "t"

/-! ## Shared lemmas -/

/-- `total_credits` is not a declared field of `BillingConfig`, so reading it
raises `AttributeError` on every instance. -/
lemma getattr_total_credits_err (cfg : BillingConfig) :
    cfg.getattr "total_credits" = .error .attributeError := rfl

/-- Neither is `credit_expiration`. -/
lemma getattr_credit_expiration_err (cfg : BillingConfig) :
    cfg.getattr "credit_expiration" = .error .attributeError := rfl

/-- `get_remaining_credits` raises `AttributeError` on every instance and
every external state. -/
lemma get_remaining_credits_err (cfg : BillingConfig) (e : Except PyErr CEResponse) :
    get_remaining_credits cfg e = .error .attributeError := rfl

/-- The console credit-overview `try` always falls back to `(0, 5000)`. -/
lemma console_credit_overview_const (cfg : BillingConfig) (ext : ExtState) :
    console_credit_overview cfg ext = (0, 5000) := rfl

/-- The Slack credit recomputation always ends in `AttributeError`: the `try`
fails (no credentials, or `get_remaining_credits` raising), and the fallback
reads the missing `total_credits` field. -/
lemma slack_credit_vals_err (cfg : BillingConfig) (env_creds : Bool) (ext : ExtState) :
    slack_credit_vals cfg env_creds ext = .error .attributeError := by
  cases env_creds with
  | false => rfl
  | true =>
    cases h : get_billing_period cfg ext.now <;>
      simp only [slack_credit_vals, slack_try_block, h] <;> rfl

/-! ## Aggregation lemmas -/

lemma dictLookup_updateCost (m : List (String × ℚ)) (k : String) (c : ℚ) (q : String) :
    dictLookup (updateCost m k c) q =
      if q = k then some ((dictLookup m k).getD 0 + c) else dictLookup m q := by
  induction m with
  | nil =>
    simp only [updateCost, dictLookup]
    by_cases h : k = q
    · subst h; simp
    · simp [h, Ne.symm h]
  | cons p rest ih =>
    obtain ⟨a, v⟩ := p
    simp only [updateCost, dictLookup]
    by_cases hak : a = k
    · subst hak
      simp only [if_pos rfl, dictLookup]
      by_cases hqa : a = q
      · subst hqa; simp
      · simp [hqa, Ne.symm hqa]
    · simp only [if_neg hak, dictLookup]
      by_cases hqa : a = q
      · subst hqa
        simp [hak]
      · simp [hqa, hak, ih]

lemma keySum_nil (q : String) : keySum [] q = 0 := rfl

lemma keySum_cons (a : String) (c : ℚ) (rest : List (String × ℚ)) (q : String) :
    keySum ((a, c) :: rest) q = (if a = q then c else 0) + keySum rest q := by
  by_cases h : a = q <;> simp [keySum, h]

lemma keySum_of_not_mem (rs : List (String × ℚ)) (q : String)
    (h : rs.any (fun r => decide (r.1 = q)) = false) : keySum rs q = 0 := by
  induction rs with
  | nil => rfl
  | cons p rest ih =>
    obtain ⟨a, c⟩ := p
    simp only [List.any_cons, Bool.or_eq_false_iff] at h
    rw [keySum_cons, ih h.2]
    have : ¬ a = q := by simpa using h.1
    simp [this]

lemma dictLookup_foldl (rs : List (String × ℚ)) (m : List (String × ℚ)) (q : String) :
    dictLookup (rs.foldl (fun m r => updateCost m r.1 r.2) m) q =
      if rs.any (fun r => decide (r.1 = q)) then
        some ((dictLookup m q).getD 0 + keySum rs q)
      else dictLookup m q := by
  induction rs generalizing m with
  | nil => simp [keySum_nil]
  | cons p rest ih =>
    obtain ⟨a, c⟩ := p
    simp only [List.foldl_cons, List.any_cons]
    rw [ih, dictLookup_updateCost, keySum_cons]
    by_cases hqa : a = q
    · subst hqa
      by_cases hrest : rest.any (fun r => decide (r.1 = a)) = true
      · simp [hrest]
        ring
      · simp only [Bool.not_eq_true] at hrest
        simp [hrest, keySum_of_not_mem rest a hrest]
    · have h1 : ¬ q = a := Ne.symm hqa
      have hd : decide (a = q) = false := by simp [hqa]
      simp only [if_neg h1, hd, Bool.false_or, if_neg hqa, zero_add]

lemma dictLookup_service_costs (rs : List (String × ℚ)) (q : String) :
    dictLookup (service_costs rs) q =
      if rs.any (fun r => decide (r.1 = q)) then some (keySum rs q) else none := by
  rw [service_costs, dictLookup_foldl]
  simp [dictLookup]

lemma dictLookup_eq_none_of_not_mem (m : List (String × ℚ)) (q : String)
    (h : q ∉ m.map Prod.fst) : dictLookup m q = none := by
  induction m with
  | nil => rfl
  | cons p rest ih =>
    obtain ⟨a, v⟩ := p
    simp only [List.map_cons, List.mem_cons, not_or] at h
    simp [dictLookup, Ne.symm h.1, ih h.2]

lemma dictLookup_filter_none (f : String × ℚ → Bool) (m : List (String × ℚ))
    (q : String) (h : dictLookup m q = none) : dictLookup (m.filter f) q = none := by
  induction m with
  | nil => rfl
  | cons p rest ih =>
    obtain ⟨a, v⟩ := p
    by_cases hqa : a = q
    · subst hqa; simp [dictLookup] at h
    · simp only [dictLookup, if_neg hqa] at h
      rw [List.filter_cons]
      by_cases hf : f (a, v) = true
      · simp only [hf, if_pos]
        simp [dictLookup, hqa, ih h]
      · simp only [Bool.not_eq_true] at hf
        simp [hf, ih h]

lemma dictLookup_filtered (θ : ℚ) (m : List (String × ℚ)) (q : String)
    (h : (m.map Prod.fst).Nodup) :
    dictLookup (filtered_costs θ m) q =
      match dictLookup m q with
      | some v => if θ ≤ v then some v else none
      | none => none := by
  induction m with
  | nil => simp [filtered_costs, dictLookup]
  | cons p rest ih =>
    obtain ⟨a, v⟩ := p
    simp only [List.map_cons, List.nodup_cons] at h
    rw [filtered_costs, List.filter_cons]
    by_cases hθ : θ ≤ v
    · have hdec : decide (θ ≤ v) = true := by simp [hθ]
      simp only [hdec, if_pos]
      by_cases hqa : a = q
      · subst hqa; simp [dictLookup, hθ]
      · simp only [dictLookup, if_neg hqa]
        exact ih h.2
    · have hdec : decide (θ ≤ v) = false := by simp [hθ]
      simp only [hdec, Bool.false_eq_true, if_neg, not_false_eq_true]
      by_cases hqa : a = q
      · subst hqa
        have hnone : dictLookup rest a = none :=
          dictLookup_eq_none_of_not_mem rest a h.1
        have : dictLookup (rest.filter (fun p => decide (θ ≤ p.2))) a = none :=
          dictLookup_filter_none _ rest a hnone
        simp [dictLookup, this, hθ]
      · simp only [dictLookup, if_neg hqa]
        have := ih h.2
        rw [filtered_costs] at this
        exact this

lemma updateCost_keys (m : List (String × ℚ)) (k : String) (c : ℚ) :
    (updateCost m k c).map Prod.fst =
      if k ∈ m.map Prod.fst then m.map Prod.fst else m.map Prod.fst ++ [k] := by
  induction m with
  | nil => simp [updateCost]
  | cons p rest ih =>
    obtain ⟨a, v⟩ := p
    by_cases hak : a = k
    · subst hak; simp [updateCost]
    · simp only [updateCost, if_neg hak, List.map_cons, List.mem_cons]
      rw [ih]
      by_cases hm : k ∈ rest.map Prod.fst
      · simp [hm, Ne.symm hak]
      · simp [hm, Ne.symm hak]

lemma updateCost_keys_nodup (m : List (String × ℚ)) (k : String) (c : ℚ)
    (h : (m.map Prod.fst).Nodup) : ((updateCost m k c).map Prod.fst).Nodup := by
  rw [updateCost_keys]
  by_cases hm : k ∈ m.map Prod.fst
  · simpa [hm] using h
  · simp [hm, List.nodup_append, h]

lemma service_costs_keys_nodup (rs : List (String × ℚ)) :
    ((service_costs rs).map Prod.fst).Nodup := by
  suffices h : ∀ m : List (String × ℚ), (m.map Prod.fst).Nodup →
      ((rs.foldl (fun m r => updateCost m r.1 r.2) m).map Prod.fst).Nodup by
    exact h [] (by simp)
  induction rs with
  | nil => intro m hm; simpa using hm
  | cons p rest ih =>
    intro m hm
    exact ih _ (updateCost_keys_nodup _ _ _ hm)

lemma dictLookup_aggregate (θ : ℚ) (rs : List (String × ℚ)) (q : String) :
    dictLookup (aggregateCosts θ rs) q =
      if rs.any (fun r => decide (r.1 = q)) then
        (if θ ≤ keySum rs q then some (keySum rs q) else none)
      else none := by
  rw [aggregateCosts, dictLookup_filtered θ _ q (service_costs_keys_nodup rs),
    dictLookup_service_costs]
  by_cases hmem : rs.any (fun r => decide (r.1 = q)) = true
  · simp [hmem]
  · simp only [Bool.not_eq_true] at hmem
    simp [hmem]

lemma keySum_perm {rs rs' : List (String × ℚ)} (h : rs.Perm rs') (q : String) :
    keySum rs q = keySum rs' q :=
  List.Perm.sum_eq (List.Perm.map _ (List.Perm.filter _ h))

lemma any_perm {rs rs' : List (String × ℚ)} (h : rs.Perm rs')
    (f : String × ℚ → Bool) : rs.any f = rs'.any f := by
  rw [Bool.eq_iff_iff, List.any_eq_true, List.any_eq_true]
  exact ⟨fun ⟨x, hx, hfx⟩ => ⟨x, h.mem_iff.mp hx, hfx⟩,
         fun ⟨x, hx, hfx⟩ => ⟨x, h.mem_iff.mpr hx, hfx⟩⟩

lemma dictLookup_aggregate_perm (θ : ℚ) {rs rs' : List (String × ℚ)}
    (h : rs.Perm rs') (q : String) :
    dictLookup (aggregateCosts θ rs) q = dictLookup (aggregateCosts θ rs') q := by
  rw [dictLookup_aggregate, dictLookup_aggregate, any_perm h, keySum_perm h]

/-! ### Lemmas for the float accumulation model -/

lemma roundHalfEven_intCast (n : ℤ) : roundHalfEven (n : ℚ) = n := by
  simp [roundHalfEven]

lemma roundB64_zero : roundB64 0 = 0 := by
  simp [roundB64]

lemma int_log_two_eq {x : ℚ} {z : ℤ} (hx : 0 < x) (h1 : (2:ℚ) ^ z ≤ x)
    (h2 : x < (2:ℚ) ^ (z + 1)) : Int.log 2 x = z := by
  have hb : 1 < 2 := one_lt_two
  have hle : z ≤ Int.log 2 x := by
    rw [← Int.zpow_le_iff_le_log hb hx]
    exact_mod_cast h1
  have hlt : Int.log 2 x < z + 1 := by
    rw [← Int.lt_zpow_iff_log_lt hb hx]
    exact_mod_cast h2
  omega

lemma roundB64_pos_eval {q : ℚ} {z m : ℤ} (hq : 0 < q)
    (hlog : Int.log 2 q = z + 52)
    (hm : roundHalfEven (q / 2 ^ z) = m) :
    roundB64 q = (m : ℚ) * 2 ^ z := by
  have habs : |q| = q := abs_of_pos hq
  have hneg : ¬ q < 0 := not_lt.mpr hq.le
  simp only [roundB64, if_neg (ne_of_gt hq), habs, hlog, add_sub_cancel_right, hm,
    if_neg hneg, one_mul]

lemma roundB64_neg_eval {q : ℚ} {z m : ℤ} (hq : 0 < q)
    (hlog : Int.log 2 q = z + 52)
    (hm : roundHalfEven (q / 2 ^ z) = m) :
    roundB64 (-q) = -((m : ℚ) * 2 ^ z) := by
  have h0 : -q ≠ 0 := neg_ne_zero.mpr (ne_of_gt hq)
  have habs : |(-q)| = q := by rw [abs_neg, abs_of_pos hq]
  have hneg : -q < 0 := neg_neg_iff_pos.mpr hq
  simp only [roundB64, if_neg h0, habs, hlog, add_sub_cancel_right, hm,
    if_pos hneg, neg_one_mul, neg_mul, one_mul]

lemma log_two_pow16 : Int.log 2 ((10:ℚ)^16) = 53 := by
  apply int_log_two_eq (by norm_num)
  · norm_num
  · norm_num

lemma log_two_pow16_succ : Int.log 2 ((10:ℚ)^16 + 1) = 53 := by
  apply int_log_two_eq (by norm_num)
  · norm_num
  · norm_num

lemma roundB64_pow16 : roundB64 ((10:ℚ)^16) = (10:ℚ)^16 := by
  have hm : roundHalfEven ((10:ℚ)^16 / 2 ^ (1:ℤ)) = 5 * 10^15 := by
    have h : (10:ℚ)^16 / 2 ^ (1:ℤ) = ((5 * 10^15 : ℤ) : ℚ) := by
      rw [zpow_one]; push_cast; norm_num
    rw [h, roundHalfEven_intCast]
  have := roundB64_pos_eval (q := (10:ℚ)^16) (z := 1) (by norm_num)
    (by rw [log_two_pow16]; norm_num) hm
  rw [this, zpow_one]; push_cast; norm_num

lemma roundB64_pow16_add_one : roundB64 ((10:ℚ)^16 + 1) = (10:ℚ)^16 := by
  have hfloor : ⌊((10:ℚ)^16 + 1) / 2 ^ (1:ℤ)⌋ = 5 * 10^15 := by
    rw [zpow_one, Int.floor_eq_iff]
    constructor
    · push_cast; norm_num
    · push_cast; norm_num
  have hm : roundHalfEven (((10:ℚ)^16 + 1) / 2 ^ (1:ℤ)) = 5 * 10^15 := by
    rw [roundHalfEven, hfloor]
    have h1 : ¬ (((10:ℚ)^16 + 1) / 2 ^ (1:ℤ) - ((5 * 10^15 : ℤ) : ℚ) < 1/2) := by
      rw [zpow_one]; push_cast; norm_num
    have h2 : ¬ ((1:ℚ)/2 < ((10:ℚ)^16 + 1) / 2 ^ (1:ℤ) - ((5 * 10^15 : ℤ) : ℚ)) := by
      rw [zpow_one]; push_cast; norm_num
    have h3 : (2:ℤ) ∣ 5 * 10^15 := by norm_num
    rw [if_neg h1, if_neg h2, if_pos h3]
  have := roundB64_pos_eval (q := (10:ℚ)^16 + 1) (z := 1) (by norm_num)
    (by rw [log_two_pow16_succ]; norm_num) hm
  rw [this, zpow_one]; push_cast; norm_num

lemma roundB64_one : roundB64 (1:ℚ) = 1 := by
  have hm : roundHalfEven ((1:ℚ) / 2 ^ (-52:ℤ)) = 2^52 := by
    have h : (1:ℚ) / 2 ^ (-52:ℤ) = ((2^52 : ℤ) : ℚ) := by
      rw [zpow_neg, one_div, inv_inv]
      push_cast
      norm_num
    rw [h, roundHalfEven_intCast]
  have := roundB64_pos_eval (q := (1:ℚ)) (z := -52) (by norm_num)
    (by rw [Int.log_one_right]; norm_num) hm
  rw [this]
  have hc : ((2^52 : ℤ) : ℚ) = (2:ℚ) ^ (52:ℤ) := by
    push_cast
    norm_num
  rw [hc, ← zpow_add₀ (two_ne_zero)]
  norm_num

lemma roundB64_neg_pow16 : roundB64 (-(10:ℚ)^16) = -(10:ℚ)^16 := by
  have hm : roundHalfEven ((10:ℚ)^16 / 2 ^ (1:ℤ)) = 5 * 10^15 := by
    have h : (10:ℚ)^16 / 2 ^ (1:ℤ) = ((5 * 10^15 : ℤ) : ℚ) := by
      rw [zpow_one]; push_cast; norm_num
    rw [h, roundHalfEven_intCast]
  have := roundB64_neg_eval (q := (10:ℚ)^16) (z := 1) (by norm_num)
    (by rw [log_two_pow16]; norm_num) hm
  rw [this, zpow_one]; push_cast; norm_num

lemma fpAdd_zero_pow16 : fpAdd 0 ((10:ℚ)^16) = (10:ℚ)^16 := by
  rw [fpAdd, zero_add, roundB64_pow16]

lemma fpAdd_pow16_one : fpAdd ((10:ℚ)^16) 1 = (10:ℚ)^16 := by
  rw [fpAdd, roundB64_pow16_add_one]

lemma fpAdd_pow16_neg : fpAdd ((10:ℚ)^16) (-(10:ℚ)^16) = 0 := by
  rw [fpAdd]
  norm_num [roundB64_zero]

lemma fpAdd_zero_neg_pow16 : fpAdd 0 (-(10:ℚ)^16) = -(10:ℚ)^16 := by
  rw [fpAdd, zero_add, roundB64_neg_pow16]

lemma fpAdd_zero_one : fpAdd 0 1 = (1:ℚ) := by
  rw [fpAdd, zero_add, roundB64_one]

lemma keyVals_nil (q : String) : keyVals [] q = [] := rfl

lemma keyVals_cons (a : String) (c : ℚ) (rest : List (String × ℚ)) (q : String) :
    keyVals ((a, c) :: rest) q =
      if a = q then c :: keyVals rest q else keyVals rest q := by
  by_cases h : a = q <;> simp [keyVals, h]

lemma keyVals_of_not_any (rs : List (String × ℚ)) (q : String)
    (h : rs.any (fun r => decide (r.1 = q)) = false) : keyVals rs q = [] := by
  induction rs with
  | nil => rfl
  | cons p rest ih =>
    obtain ⟨a, c⟩ := p
    simp only [List.any_cons, Bool.or_eq_false_iff] at h
    rw [keyVals_cons, ih h.2]
    have : ¬ a = q := by simpa using h.1
    simp [this]

lemma dictLookup_updateCostFp (m : List (String × ℚ)) (k : String) (c : ℚ) (q : String) :
    dictLookup (updateCostFp m k c) q =
      if q = k then some (fpAdd ((dictLookup m k).getD 0) c) else dictLookup m q := by
  induction m with
  | nil =>
    simp only [updateCostFp, dictLookup]
    by_cases h : k = q
    · subst h; simp
    · simp [h, Ne.symm h]
  | cons p rest ih =>
    obtain ⟨a, v⟩ := p
    simp only [updateCostFp, dictLookup]
    by_cases hak : a = k
    · subst hak
      simp only [if_pos rfl, dictLookup]
      by_cases hqa : a = q
      · subst hqa; simp
      · simp [hqa, Ne.symm hqa]
    · simp only [if_neg hak, dictLookup]
      by_cases hqa : a = q
      · subst hqa
        simp [hak]
      · simp [hqa, hak, ih]

lemma dictLookup_foldl_fp (rs : List (String × ℚ)) (m : List (String × ℚ)) (q : String) :
    dictLookup (rs.foldl (fun m r => updateCostFp m r.1 r.2) m) q =
      if rs.any (fun r => decide (r.1 = q)) then
        some (List.foldl fpAdd ((dictLookup m q).getD 0) (keyVals rs q))
      else dictLookup m q := by
  induction rs generalizing m with
  | nil => simp [keyVals_nil]
  | cons p rest ih =>
    obtain ⟨a, c⟩ := p
    simp only [List.foldl_cons, List.any_cons]
    rw [ih, dictLookup_updateCostFp, keyVals_cons]
    by_cases hqa : a = q
    · subst hqa
      by_cases hrest : rest.any (fun r => decide (r.1 = a)) = true
      · simp [hrest]
      · simp only [Bool.not_eq_true] at hrest
        simp [hrest, keyVals_of_not_any rest a hrest]
    · have h1 : ¬ q = a := Ne.symm hqa
      have hd : decide (a = q) = false := by simp [hqa]
      simp only [if_neg h1, hd, Bool.false_or, if_neg hqa]

lemma updateCostFp_keys (m : List (String × ℚ)) (k : String) (c : ℚ) :
    (updateCostFp m k c).map Prod.fst =
      if k ∈ m.map Prod.fst then m.map Prod.fst else m.map Prod.fst ++ [k] := by
  induction m with
  | nil => simp [updateCostFp]
  | cons p rest ih =>
    obtain ⟨a, v⟩ := p
    by_cases hak : a = k
    · subst hak; simp [updateCostFp]
    · simp only [updateCostFp, if_neg hak, List.map_cons, List.mem_cons]
      rw [ih]
      by_cases hm : k ∈ rest.map Prod.fst
      · simp [hm, Ne.symm hak]
      · simp [hm, Ne.symm hak]

lemma updateCostFp_keys_nodup (m : List (String × ℚ)) (k : String) (c : ℚ)
    (h : (m.map Prod.fst).Nodup) : ((updateCostFp m k c).map Prod.fst).Nodup := by
  rw [updateCostFp_keys]
  by_cases hm : k ∈ m.map Prod.fst
  · simpa [hm] using h
  · simp [hm, List.nodup_append, h]

lemma service_costs_fp_keys_nodup (rs : List (String × ℚ)) :
    ((service_costs_fp rs).map Prod.fst).Nodup := by
  suffices h : ∀ m : List (String × ℚ), (m.map Prod.fst).Nodup →
      ((rs.foldl (fun m r => updateCostFp m r.1 r.2) m).map Prod.fst).Nodup by
    exact h [] (by simp)
  induction rs with
  | nil => intro m hm; simpa using hm
  | cons p rest ih =>
    intro m hm
    exact ih _ (updateCostFp_keys_nodup _ _ _ hm)

lemma dictLookup_aggregateFp (θ : ℚ) (rs : List (String × ℚ)) (q : String) :
    dictLookup (aggregateCostsFp θ rs) q =
      if rs.any (fun r => decide (r.1 = q)) then
        (if θ ≤ List.foldl fpAdd 0 (keyVals rs q) then
          some (List.foldl fpAdd 0 (keyVals rs q))
        else none)
      else none := by
  rw [aggregateCostsFp, dictLookup_filtered θ _ q (service_costs_fp_keys_nodup rs)]
  rw [service_costs_fp, dictLookup_foldl_fp]
  by_cases hmem : rs.any (fun r => decide (r.1 = q)) = true
  · simp [hmem, dictLookup]
  · simp only [Bool.not_eq_true] at hmem
    simp [hmem, dictLookup]

lemma any_of_keyVals_eq {recs recs' : List (String × ℚ)} (q : String)
    (h : keyVals recs q = keyVals recs' q) :
    recs.any (fun r => decide (r.1 = q)) = recs'.any (fun r => decide (r.1 = q)) := by
  have key : ∀ (l l' : List (String × ℚ)), keyVals l q = keyVals l' q →
      l.any (fun r => decide (r.1 = q)) = true →
      l'.any (fun r => decide (r.1 = q)) = true := by
    intro l l' hvals hl
    obtain ⟨r, hr, hq⟩ := List.any_eq_true.mp hl
    have h1 : r.2 ∈ keyVals l q :=
      List.mem_map_of_mem _ (List.mem_filter.mpr ⟨hr, hq⟩)
    rw [hvals] at h1
    obtain ⟨r', hr', -⟩ := List.mem_map.mp h1
    exact List.any_eq_true.mpr
      ⟨r', (List.mem_filter.mp hr').1, (List.mem_filter.mp hr').2⟩
  rw [Bool.eq_iff_iff]
  exact ⟨key recs recs' h, key recs' recs h.symm⟩

/-! ## Claims -/

/-- C1: `BillingConfig` declares no `total_credits` (nor `credit_expiration`)
field, so on every configuration instance and every external state both
`get_remaining_credits` and `generate_billing_report` raise `AttributeError`
before returning, and the credit-accounting path cannot produce the clamped
remaining-credit value. -/
theorem c1_missing_total_credits_aborts (cfg : BillingConfig)
    (e : Except PyErr CEResponse) (ext : ExtState) :
    cfg.getattr "total_credits" = .error .attributeError
    ∧ cfg.getattr "credit_expiration" = .error .attributeError
    ∧ get_remaining_credits cfg e = .error .attributeError
    ∧ generate_billing_report cfg ext = .error .attributeError :=
  ⟨getattr_total_credits_err cfg, getattr_credit_expiration_err cfg,
    get_remaining_credits_err cfg e, rfl⟩

/-- C3: every query operation of the adapter returns its empty/zero neutral
value when the external API call fails, and likewise when the response is
malformed (empty `Keys`, missing `Total`, empty `ResultsByTime`); the
operations return plain values, so no exception propagates to the caller. -/
theorem c3_query_failures_degrade_to_empty (cfg : BillingConfig) (e : PyErr) :
    get_cost_by_service cfg (.error e) = []
    ∧ get_cost_by_usage_type cfg (.error e) = []
    ∧ get_daily_costs (.error e) = []
    ∧ get_total_cost (.error e) = 0
    ∧ get_credits (.error e) = 0
    ∧ get_usage_cost (.error e) = 0
    ∧ get_credits_used_lifetime (.error e) = 0
    ∧ get_cost_by_service cfg (.ok malformedResp) = []
    ∧ get_daily_costs (.ok malformedResp) = []
    ∧ get_total_cost (.ok emptyResp) = 0
    ∧ get_credits (.ok malformedResp) = 0
    ∧ get_usage_cost (.ok malformedResp) = 0
    ∧ get_credits_used_lifetime (.ok malformedResp) = 0 :=
  ⟨rfl, rfl, rfl, rfl, rfl, rfl, rfl, rfl, rfl, rfl, rfl, rfl, rfl⟩

/-- C4 counterexample: with kind DAYS and count 0 the resolver returns a
period (start = end = midnight) instead of raising. -/
theorem c4_counterexample_count_zero_returns :
    get_billing_period { period_type := "d", period_count := 0 } 0 = .ok (0, 0) := rfl

/-- C4 (amended): the period resolver fails, with `ValueError`, iff the period
kind is neither DAYS nor MONTHS; the count is not validated, and for count ≤ 0
with a valid kind it returns a degenerate period with end ≤ start instead of
raising. -/
theorem c4_amended_fail_iff_bad_kind (cfg : BillingConfig) (now : ℤ) :
    (get_billing_period cfg now = .error .valueError ↔
      ¬(cfg.period_type = "d" ∨ cfg.period_type = "m"))
    ∧ (cfg.period_count ≤ 0 → (cfg.period_type = "d" ∨ cfg.period_type = "m") →
        ∃ s e, get_billing_period cfg now = .ok (s, e) ∧ e ≤ s) := by
  constructor
  · by_cases hd : cfg.period_type = "d"
    · simp [get_billing_period, hd]
    · by_cases hm : cfg.period_type = "m"
      · simp [get_billing_period, hd, hm]
      · simp [get_billing_period, hd, hm]
  · intro hc hk
    rcases hk with hd | hm
    · refine ⟨midnight now - cfg.period_count * secondsPerDay, midnight now,
        by simp [get_billing_period, hd], ?_⟩
      have : cfg.period_count * secondsPerDay ≤ 0 := by
        have : (0:ℤ) < secondsPerDay := by norm_num [secondsPerDay]
        nlinarith
      linarith
    · by_cases hd : cfg.period_type = "d"
      · refine ⟨midnight now - cfg.period_count * secondsPerDay, midnight now,
          by simp [get_billing_period, hd], ?_⟩
        have : cfg.period_count * secondsPerDay ≤ 0 := by
          have : (0:ℤ) < secondsPerDay := by norm_num [secondsPerDay]
          nlinarith
        linarith
      · refine ⟨midnight now - cfg.period_count * 30 * secondsPerDay, midnight now,
          by simp [get_billing_period, hd, hm], ?_⟩
        have : cfg.period_count * 30 * secondsPerDay ≤ 0 := by
          have : (0:ℤ) < secondsPerDay := by norm_num [secondsPerDay]
          nlinarith
        linarith

/-- C4 witness: the amended theorem applied to kind DAYS with count 0. -/
theorem c4_amended_witness :
    ∃ s e, get_billing_period { period_type := "d", period_count := 0 } 3600 = .ok (s, e) ∧ e ≤ s :=
  (c4_amended_fail_iff_bad_kind { period_type := "d", period_count := 0 } 3600).2
    (by norm_num) (Or.inl rfl)

/-- C5 counterexample: at `now` = 3600 (one hour past midnight) with kind DAYS
and count 7, the resolver returns end = 0 (midnight), not `now` = 3600, and
start = −604800 = midnight − 7 days, not now − 7 days. -/
theorem c5_counterexample_end_is_midnight :
    get_billing_period { period_type := "d", period_count := 7 } 3600 = .ok (-604800, 0)
    ∧ (0:ℤ) ≠ 3600 ∧ (-604800:ℤ) ≠ 3600 - 7 * 86400 := by
  refine ⟨by norm_num [get_billing_period, midnight, secondsPerDay], by decide, by decide⟩

/-- C5 (amended): writing `midnight now` for `now` truncated to the start of
its day (the `replace(hour=0, …)` of the resolver): for a valid kind and count ≥ 1
the resolver returns end = midnight now and start = end − count days (DAYS)
or end − count × 30 days (MONTHS), so start < end always; at a midnight
instant the original claimed equalities hold; and for the same `now`, DAYS
count 7 spans 7 days while MONTHS count 1 spans 30 days. -/
theorem c5_amended_period_arithmetic (cfg : BillingConfig) (now : ℤ)
    (hcount : 1 ≤ cfg.period_count) :
    (cfg.period_type = "d" →
      get_billing_period cfg now =
        .ok (midnight now - cfg.period_count * secondsPerDay, midnight now)
      ∧ midnight now - cfg.period_count * secondsPerDay < midnight now)
    ∧ (cfg.period_type = "m" →
      get_billing_period cfg now =
        .ok (midnight now - cfg.period_count * 30 * secondsPerDay, midnight now)
      ∧ midnight now - cfg.period_count * 30 * secondsPerDay < midnight now)
    ∧ (now % secondsPerDay = 0 → midnight now = now)
    ∧ get_billing_period { period_type := "d", period_count := 7 } now
        = .ok (midnight now - 7 * secondsPerDay, midnight now)
    ∧ get_billing_period { period_type := "m", period_count := 1 } now
        = .ok (midnight now - 30 * secondsPerDay, midnight now) := by
  have hday : (0:ℤ) < secondsPerDay := by norm_num [secondsPerDay]
  refine ⟨fun hd => ⟨by simp [get_billing_period, hd], ?_⟩,
    fun hm => ⟨?_, ?_⟩, fun hmid => ?_, ?_, ?_⟩
  · have : 0 < cfg.period_count * secondsPerDay := by nlinarith
    linarith
  · by_cases hd : cfg.period_type = "d"
    · rw [hd] at hm; exact absurd hm (by decide)
    · simp [get_billing_period, hd, hm]
  · have : 0 < cfg.period_count * 30 * secondsPerDay := by nlinarith
    linarith
  · rw [midnight, hmid]; ring
  · show get_billing_period { period_type := "d", period_count := 7 } now = _
    simp [get_billing_period]
  · show get_billing_period { period_type := "m", period_count := 1 } now = _
    simp [get_billing_period]

/-- C5 witness: the amended theorem applied to the default kind MONTHS with
count 1 at `now` = 3600. -/
theorem c5_amended_witness :
    (1:ℤ) ≤ 1
    ∧ (get_billing_period { period_type := "m", period_count := 1 } 3600 =
        .ok (midnight 3600 - 1 * 30 * secondsPerDay, midnight 3600)
      ∧ midnight 3600 - 1 * 30 * secondsPerDay < midnight 3600) :=
  ⟨le_refl 1,
    (c5_amended_period_arithmetic { period_type := "m", period_count := 1 } 3600
      (le_refl 1)).2.1 rfl⟩

/-- C6: aggregation keeps exactly the dimension groups whose summed amount is
at least the threshold and drops those strictly below, leaving them absent,
not zeroed: the aggregated lookup yields `v` iff the key occurs in the
records, `v` is its summed amount, and the sum meets the threshold.  A group
at exactly the threshold is kept, one a cent below is dropped, and
{EC2: 120.00, S3: 0.005} at threshold 0.01 aggregates to {EC2: 120.00} with
S3 absent — also end to end through `get_cost_by_service`. -/
theorem c6_threshold_keeps_iff_at_least (θ : ℚ) (recs : List (String × ℚ))
    (q : String) (v : ℚ) :
    (dictLookup (aggregateCosts θ recs) q = some v ↔
      ((∃ r ∈ recs, r.1 = q) ∧ v = keySum recs q ∧ θ ≤ v))
    ∧ aggregateCosts (1/100) [("EC2", 120), ("S3", 1/200)] = [("EC2", 120)]
    ∧ dictLookup (aggregateCosts (1/100) [("EC2", 120), ("S3", 1/200)]) "S3" = none
    ∧ aggregateCosts (1/100) [("A", 1/100)] = [("A", 1/100)]
    ∧ aggregateCosts (1/100) [("A", 1/100 - 1/100)] = []
    ∧ get_cost_by_service defaultConfig (.ok respEC2S3) = [("EC2", 120)] := by
  refine ⟨?_, ?_, ?_, ?_, ?_, ?_⟩
  · rw [dictLookup_aggregate]
    by_cases hmem : recs.any (fun r => decide (r.1 = q)) = true
    · have hmem' : ∃ r ∈ recs, r.1 = q := by simpa using hmem
      rw [if_pos hmem]
      by_cases hθ : θ ≤ keySum recs q
      · rw [if_pos hθ]
        constructor
        · intro h
          have hv : v = keySum recs q := (Option.some.injEq _ _).mp h |>.symm
          exact ⟨hmem', hv, hv ▸ hθ⟩
        · rintro ⟨-, rfl, -⟩; rfl
      · rw [if_neg hθ]
        constructor
        · intro h; exact absurd h (by simp)
        · rintro ⟨-, rfl, hv⟩; exact absurd hv hθ
    · rw [if_neg hmem]
      constructor
      · intro h; exact absurd h (by simp)
      · rintro ⟨hmem', -, -⟩
        exact absurd (by simpa using hmem' : recs.any (fun r => decide (r.1 = q)) = true) hmem
  · simp [aggregateCosts, filtered_costs, service_costs, updateCost]
    norm_num
  · rw [show aggregateCosts (1/100) [("EC2", 120), ("S3", 1/200)] = [("EC2", 120)] from by
      simp [aggregateCosts, filtered_costs, service_costs, updateCost]
      norm_num]
    rfl
  · simp [aggregateCosts, filtered_costs, service_costs, updateCost]
  · simp [aggregateCosts, filtered_costs, service_costs, updateCost]
  · have h2 : filtered_costs (1/100) [("EC2", (120:ℚ)), ("S3", 1/200)] = [("EC2", 120)] := by
      simp [filtered_costs]
      norm_num
    have h3 : get_cost_by_service defaultConfig (.ok respEC2S3)
        = filtered_costs (1/100) [("EC2", 120), ("S3", 1/200)] := rfl
    rw [h3, h2]

/-- C7 counterexample: under the float accumulation of the source the
aggregated mapping is order-dependent: the records {A: 1e16, A: 1.0,
A: −1e16} accumulate to 0.0 (1e16 + 1.0 rounds back to 1e16), dropping A
below the 0.01 threshold, while the permutation {A: 1e16, A: −1e16, A: 1.0}
accumulates to 1.0 and keeps A, so the two mappings differ at A. -/
theorem c7_counterexample_float_order_dependence :
    ([("A", (10:ℚ)^16), ("A", 1), ("A", -(10:ℚ)^16)].Perm
      [("A", (10:ℚ)^16), ("A", -(10:ℚ)^16), ("A", 1)])
    ∧ aggregateCostsFp (1/100) [("A", (10:ℚ)^16), ("A", 1), ("A", -(10:ℚ)^16)] = []
    ∧ aggregateCostsFp (1/100) [("A", (10:ℚ)^16), ("A", -(10:ℚ)^16), ("A", 1)]
        = [("A", 1)]
    ∧ dictLookup
        (aggregateCostsFp (1/100) [("A", (10:ℚ)^16), ("A", 1), ("A", -(10:ℚ)^16)]) "A"
      ≠ dictLookup
        (aggregateCostsFp (1/100) [("A", (10:ℚ)^16), ("A", -(10:ℚ)^16), ("A", 1)]) "A" := by
  have h2 : aggregateCostsFp (1/100) [("A", (10:ℚ)^16), ("A", 1), ("A", -(10:ℚ)^16)] = [] := by
    simp only [aggregateCostsFp, service_costs_fp, List.foldl_cons, List.foldl_nil,
      updateCostFp, fpAdd_zero_pow16, fpAdd_pow16_one, fpAdd_pow16_neg]
    simp [filtered_costs]
  have h3 : aggregateCostsFp (1/100) [("A", (10:ℚ)^16), ("A", -(10:ℚ)^16), ("A", 1)]
      = [("A", 1)] := by
    simp only [aggregateCostsFp, service_costs_fp, List.foldl_cons, List.foldl_nil,
      updateCostFp, fpAdd_zero_pow16, fpAdd_pow16_neg, fpAdd_zero_one]
    simp [filtered_costs]
    norm_num
  refine ⟨List.Perm.cons _ (List.Perm.swap ("A", -(10:ℚ)^16) ("A", 1) []), h2, h3, ?_⟩
  rw [h2, h3]
  simp [dictLookup]

/-- C7 (amended): with exact rational summation, aggregation is invariant to
record order: every permutation of the cost records yields an identical
mapping.  Under the float accumulation of the source, invariance holds for
every reordering that preserves, for each key, the sequence of amounts that
key carries (each float accumulator then performs the same additions in the
same order); reordering records within a key can change the mapping, float
addition being non-associative. -/
theorem c7_amended_order_invariance (θ : ℚ) (recs recs' : List (String × ℚ))
    (q : String) :
    (recs.Perm recs' →
      dictLookup (aggregateCosts θ recs) q = dictLookup (aggregateCosts θ recs') q)
    ∧ ((∀ k, keyVals recs k = keyVals recs' k) →
      dictLookup (aggregateCostsFp θ recs) q = dictLookup (aggregateCostsFp θ recs') q) := by
  constructor
  · intro h
    exact dictLookup_aggregate_perm θ h q
  · intro h
    rw [dictLookup_aggregateFp, dictLookup_aggregateFp, any_of_keyVals_eq q (h q), h q]

/-- C7 witness: the amended theorem applied to a concrete two-record swap of
distinct keys, in both the exact and the float semantics. -/
theorem c7_amended_witness :
    ([("A", (1:ℚ)), ("B", 2)].Perm [("B", 2), ("A", 1)])
    ∧ dictLookup (aggregateCosts 0 [("A", (1:ℚ)), ("B", 2)]) "A"
        = dictLookup (aggregateCosts 0 [("B", 2), ("A", 1)]) "A"
    ∧ (∀ k, keyVals [("A", (1:ℚ)), ("B", 2)] k = keyVals [("B", 2), ("A", 1)] k)
    ∧ dictLookup (aggregateCostsFp 0 [("A", (1:ℚ)), ("B", 2)]) "A"
        = dictLookup (aggregateCostsFp 0 [("B", 2), ("A", 1)]) "A" := by
  have hperm : [("A", (1:ℚ)), ("B", 2)].Perm [("B", 2), ("A", 1)] :=
    List.Perm.swap ("B", 2) ("A", 1) []
  have hkv : ∀ k, keyVals [("A", (1:ℚ)), ("B", 2)] k = keyVals [("B", 2), ("A", 1)] k := by
    intro k
    by_cases hA : "A" = k
    · by_cases hB : "B" = k
      · exact absurd (hA.trans hB.symm) (by decide)
      · simp [keyVals, hA, hB]
    · by_cases hB : "B" = k <;> simp [keyVals, hA, hB]
  exact ⟨hperm, (c7_amended_order_invariance 0 _ _ "A").1 hperm, hkv,
    (c7_amended_order_invariance 0 _ _ "A").2 hkv⟩

/-- C8: the computed remaining credit is the clamp max(0, total − used): it is
never negative and is exactly 0 whenever the lifetime usage exceeds the
total; 5000 total with 4600 used gives 400, which the console status
classifier reports as CRITICAL. -/
theorem c8_remaining_clamped_and_critical :
    (∀ t u : ℚ, 0 ≤ remaining_credits_calc t u)
    ∧ (∀ t u : ℚ, t < u → remaining_credits_calc t u = 0)
    ∧ remaining_credits_calc 5000 4600 = 400
    ∧ credit_status (remaining_credits_calc 5000 4600) =
        "🚨 CRITICAL - Credits running out soon!" := by
  refine ⟨fun t u => le_max_left 0 _, fun t u h => ?_, by norm_num [remaining_credits_calc], ?_⟩
  · rw [remaining_credits_calc, max_eq_left (by linarith)]
  · norm_num [remaining_credits_calc, credit_status]

/-- C8 witness: the clamp theorem applied at total 4000, used 4600. -/
theorem c8_witness :
    (4000:ℚ) < 4600 ∧ remaining_credits_calc 4000 4600 = 0 :=
  ⟨by norm_num, c8_remaining_clamped_and_critical.2.1 4000 4600 (by norm_num)⟩

/-- C9: net cost is usage + credits, hence at most the usage cost whenever the
credits are non-positive; 200 with −150 gives 50, 200 with −250 gives −50;
the scenario-3 report stores the unfloored −50 under `net_cost` (and under
`costs.net_cost_period`), while the console renderer displays
max(0, −50) = 0.00. -/
theorem c9_net_cost_stored_unfloored_displayed_floored :
    (∀ u c : ℚ, c ≤ 0 → net_cost_calc u c ≤ u)
    ∧ net_cost_calc 200 (-150) = 50
    ∧ net_cost_calc 200 (-250) = -50
    ∧ pyLookup reportScenario3 "net_cost" = some (.num (-50))
    ∧ pyGetMethod (pyGetD reportScenario3 "costs" (.dict [])) "net_cost_period" (.num 0)
        = .ok (.num (-50))
    ∧ (display_report_console defaultConfig extEmpty reportScenario3).map
        ConsoleOutput.net_cost_display = .ok 0 := by
  refine ⟨fun u c h => ?_, by norm_num [net_cost_calc], by norm_num [net_cost_calc],
    rfl, rfl, ?_⟩
  · rw [net_cost_calc]; linarith
  · have h1 : (display_report_console defaultConfig extEmpty reportScenario3).map
        ConsoleOutput.net_cost_display = .ok (max 0 (-50)) := rfl
    rw [h1]
    norm_num

/-- C9 witness: the inequality applied at usage 200, credits −150. -/
theorem c9_witness :
    ((-150:ℚ) ≤ 0) ∧ net_cost_calc 200 (-150) ≤ 200 :=
  ⟨by norm_num, c9_net_cost_stored_unfloored_displayed_floored.1 200 (-150) (by norm_num)⟩

/-- C10: the report dict literal binds the key "credits" twice, and evaluating
it keeps the later binding: the report maps "credits" to the signed
period-credits float, not to the structured credit dict, so the
`isinstance(credits, dict)` branch of the console display is never taken (the
extraction runs the legacy `abs(credits) if credits < 0 else 0` arm), while
"costs" still maps to a dict (so the dict arm of the chat formatter for costs is
taken and its legacy credits-reading arm is not). -/
theorem c10_duplicate_credits_later_binding_wins (startStr endStr ptype : String)
    (pcount : ℤ) (usage credApp net : ℚ) (totalAvail expiration : PyV)
    (used remaining : ℚ) (currency : String) (byService byUsage : List (String × ℚ))
    (daily : List PyV) (genAt : String) :
    ((billing_report_entries startStr endStr ptype pcount usage credApp net
        totalAvail expiration used remaining currency byService byUsage daily
        genAt).countP (fun p => decide (p.1 = "credits")) = 2)
    ∧ pyLookup (billing_report_dict startStr endStr ptype pcount usage credApp net
        totalAvail expiration used remaining currency byService byUsage daily
        genAt) "credits" = some (.num credApp)
    ∧ isDict (pyGetD (billing_report_dict startStr endStr ptype pcount usage credApp
        net totalAvail expiration used remaining currency byService byUsage daily
        genAt) "credits" (.dict [])) = false
    ∧ console_credits_applied (pyGetD (billing_report_dict startStr endStr ptype
        pcount usage credApp net totalAvail expiration used remaining currency
        byService byUsage daily genAt) "credits" (.dict []))
        = .ok (if credApp < 0 then -credApp else 0)
    ∧ isDict (pyGetD (billing_report_dict startStr endStr ptype pcount usage credApp
        net totalAvail expiration used remaining currency byService byUsage daily
        genAt) "costs" .pynone) = true :=
  ⟨rfl, rfl, rfl, rfl, rfl⟩

/-- C2 counterexample: the chat renderer is not a pure best-effort formatter:
on the empty report (every field absent, the extreme partial report) under
the shipped configuration it raises `AttributeError` instead of rendering —
its fresh-analyzer `try` fails and the `except` fallback reads the missing
`total_credits` configuration field. -/
theorem c2_counterexample_chat_renderer_raises :
    format_billing_message defaultConfig true extEmpty [] = .error .attributeError := rfl

/-- C2 (amended): rendering is not pure formatting — both renderers invoke
the external credit queries of the analyzer — but under the shipped configuration
model those recomputations are degenerate: the console renderer produces the
same output for every external-API state (its credit `try` always falls back
to used 0 / remaining 5000), it renders a best-effort report on the empty
report, and the chat formatter never renders: for every report and external
state it raises instead of returning a message. -/
theorem c2_amended_console_deterministic_chat_raises (cfg : BillingConfig)
    (ext ext' : ExtState) (report : List (String × PyV)) (env_creds : Bool) :
    display_report_console cfg ext report = display_report_console cfg ext' report
    ∧ (∃ out, display_report_console cfg ext [] = .ok out)
    ∧ (∃ e, format_billing_message cfg env_creds ext report = .error e) := by
  refine ⟨?_, ⟨_, rfl⟩, ?_⟩
  · simp only [display_report_console, console_credit_overview_const]
  · cases hx : slack_extract report with
    | error e =>
      exact ⟨e, by simp only [format_billing_message, hx]; rfl⟩
    | ok v =>
      exact ⟨.attributeError, by
        simp only [format_billing_message, hx, slack_credit_vals_err]; rfl⟩
